import Mathlib

/-!
Verification of the ADOS core: the Relationship Discovery Engine
(src/modules/knowledge_graph.py) and the Query Validation Engine
(src/modules/trust_layer.py), shallowly embedded in Lean 4.

Conventions of the embedding:
* pandas cell values are modelled by the inductive type `Value`; a column is a
  list of `Option Value` (`none` models a null / NaN cell, dropped by
  `dropna`).
* A DataFrame is its ordered list of (column name, cells) pairs; a dict of
  DataFrames is an ordered association list (Python dicts preserve insertion
  order).
* The networkx `DiGraph` is modelled by `KGraph`: an ordered node list plus an
  ordered edge list keyed by the ordered node pair; `add_edge` on an existing
  ordered pair replaces its attributes (DiGraph keeps a single edge per
  ordered pair), and inserts missing endpoints as nodes.
* Python floats produced by the discovery code (0.9, 0.1, 0.95 and Jaccard
  ratios of small integers) are modelled by rationals; at these magnitudes the
  float arithmetic of the source is exact, so the model is faithful.
* Methods that read (and possibly write) the shared `LivingKnowledgeGraph`
  state are embedded in explicit state-passing style on `KGState`.
-/

namespace Ados

/-- A cell value of a tabular dataset. -/
inductive Value where
  | intV : Int → Value
  | strV : String → Value
deriving DecidableEq, Repr

/-- One column of a DataFrame: its name and its cells (`none` = null). -/
abbrev Column := String × List (Option Value)

/-- A DataFrame: ordered list of named columns. -/
abbrev Frame := List Column

/-- `Relationship` dataclass of knowledge_graph.py. -/
structure Relationship where
  source_file : String
  source_column : String
  target_file : String
  target_column : String
  relationship_type : String
  confidence : ℚ
deriving DecidableEq, Repr

/-- Attributes stored on a graph node by `scan_data_products` (`add_node`). -/
structure NodeAttrs where
  ntype : String
  columns : List String
  shape : Nat × Nat
deriving DecidableEq, Repr

/-- Attributes stored on a graph edge by `_add_edge_to_graph`. -/
structure EdgeAttrs where
  source_column : String
  target_column : String
  etype : String
  confidence : ℚ
deriving DecidableEq, Repr

/-- Model of the networkx `DiGraph`: ordered nodes, node attributes, and one
edge per ordered node pair. -/
structure KGraph where
  nodes : List String
  nodeAttrs : List (String × NodeAttrs)
  edges : List (String × String × EdgeAttrs)
deriving DecidableEq, Repr

/-- `ColumnMetadata` dataclass of knowledge_graph.py. -/
structure ColumnMetadata where
  file : String
  column : String
  dtype : String
  sample_values : List Value
  is_id : Bool
  cardinality : Nat
deriving DecidableEq, Repr

/-- The mutable state of a `LivingKnowledgeGraph` instance. -/
structure KGState where
  graph : KGraph
  metadata : List (String × List (String × ColumnMetadata))
  relationships : List Relationship
deriving DecidableEq, Repr

/-- networkx `add_node` on a `DiGraph`: insert the node if new, set its
attributes (replacing previous ones). -/
def addNodeToGraph (g : KGraph) (n : String) (a : NodeAttrs) : KGraph :=
  { nodes := if g.nodes.contains n then g.nodes else g.nodes ++ [n]
    nodeAttrs :=
      if (g.nodeAttrs.map Prod.fst).contains n then
        g.nodeAttrs.map (fun p => if p.1 = n then (n, a) else p)
      else g.nodeAttrs ++ [(n, a)]
    edges := g.edges }

/-- Insert a node with no attributes if missing (what `add_edge` does to a
previously unseen endpoint). -/
def ensureNode (g : KGraph) (n : String) : KGraph :=
  { g with nodes := if g.nodes.contains n then g.nodes else g.nodes ++ [n] }

/-- networkx `DiGraph.add_edge u v **attrs`: a `DiGraph` holds at most one
edge per ordered pair, so an existing `(u, v)` edge has its attributes
replaced; otherwise the edge is appended.  Missing endpoints are inserted. -/
def addEdge (g : KGraph) (u v : String) (a : EdgeAttrs) : KGraph :=
  let g := ensureNode (ensureNode g u) v
  if g.edges.any (fun e => e.1 = u && e.2.1 = v) then
    { g with edges := g.edges.map (fun e => if e.1 = u && e.2.1 = v then (u, v, a) else e) }
  else
    { g with edges := g.edges ++ [(u, v, a)] }

/-- `_add_edge_to_graph` of knowledge_graph.py. -/
def addEdgeToGraph (g : KGraph) (rel : Relationship) : KGraph :=
  addEdge g rel.source_file rel.target_file
    { source_column := rel.source_column
      target_column := rel.target_column
      etype := rel.relationship_type
      confidence := rel.confidence }

/-- ASCII lower-casing of one character (Python `str.lower` restricted to the
ASCII range the source data uses). -/
def lowerChar (c : Char) : Char :=
  if 65 ≤ c.toNat ∧ c.toNat ≤ 90 then Char.ofNat (c.toNat + 32) else c

/-- ASCII `str.lower` on a string. -/
def lowerStr (s : String) : String := String.mk (s.data.map lowerChar)

/-- Python whitespace class `\s` (ASCII range, which covers the inputs the
source deals with). -/
def isPySpace (c : Char) : Bool :=
  c = ' ' || c = '\t' || c = '\n' || c = '\r' || c = '\x0b' || c = '\x0c'

/-- A separator character of the regex `[_\s]+` used by
`_is_potential_join_key`. -/
def isSepChar (c : Char) : Bool :=
  c = '_' || isPySpace c

/-- Worker for `re.split(r'[_\s]+', s)`: split at each maximal separator run,
keeping the (possibly empty) fields before a leading run and after a trailing
run, exactly as Python does.  When `skipping` is true the scanner is inside a
separator run whose field has already been emitted. -/
def splitSepGo (skipping : Bool) (cur : List Char) : List Char → List (List Char)
  | [] => [cur.reverse]
  | c :: cs =>
    if isSepChar c then
      if skipping then splitSepGo true [] cs
      else cur.reverse :: splitSepGo true [] cs
    else
      splitSepGo false (c :: cur) cs

/-- `re.split(r'[_\s]+', s)` as a list of token strings. -/
def splitTokens (s : String) : List String :=
  (splitSepGo false [] s.data).map (fun l => String.mk l)

/-- The `significant_keywords` set of `_is_potential_join_key`. -/
def significantKeywords : List String :=
  ["id", "key", "client", "produit", "product", "customer", "transaction"]

/-- `_is_potential_join_key` of knowledge_graph.py: the lower-cased token sets
of the two column names must share at least one significant keyword. -/
def isPotentialJoinKey (col1 col2 : String) : Bool :=
  let parts1 := splitTokens (lowerStr col1)
  let parts2 := splitTokens (lowerStr col2)
  parts1.any (fun t => parts2.contains t && significantKeywords.contains t)

/-- `_calculate_value_overlap` of knowledge_graph.py: the Jaccard overlap of
the two columns sets of distinct non-null values.  Python `set(...)` is
modelled by a duplicate-free list; only the cardinalities of the
intersection and of the union are consumed, so the list model agrees with
the set semantics of the source. -/
def calculateValueOverlap (series1 series2 : List (Option Value)) : ℚ :=
  let set1 := (series1.filterMap id).dedup
  let set2 := (series2.filterMap id).dedup
  if set1 = [] ∨ set2 = [] then 0
  else
    let intersection := (set1 ∩ set2).length
    let union := ((set1 ++ set2).dedup).length
    if 0 < union then (intersection : ℚ) / (union : ℚ) else 0

/-- The relationship (if any) emitted by `discover_relationships` for one
ordered column pair of a dataset pair: the exact-name rule first, else the
join-key heuristic guarded by the 10 percent overlap threshold. -/
def columnPairRel (file1 file2 : String) (c1 c2 : Column) : Option Relationship :=
  if c1.1 = c2.1 then
    some { source_file := file1, source_column := c1.1
           target_file := file2, target_column := c2.1
           relationship_type := "exact_name_match", confidence := 9/10 }
  else if isPotentialJoinKey c1.1 c2.1 then
    if 1/10 < calculateValueOverlap c1.2 c2.2 then
      some { source_file := file1, source_column := c1.1
             target_file := file2, target_column := c2.1
             relationship_type := "join_key"
             confidence := min (calculateValueOverlap c1.2 c2.2) (19/20) }
    else none
  else none

/-- All relationships emitted for one dataset pair, in column iteration
order. -/
def pairRelationships (file1 : String) (df1 : Frame) (file2 : String) (df2 : Frame) :
    List Relationship :=
  df1.flatMap (fun c1 => df2.filterMap (fun c2 => columnPairRel file1 file2 c1 c2))

/-- `for i, file1 in enumerate(files): for file2 in files[i+1:]`. -/
def filePairs {α : Type} : List α → List (α × α)
  | [] => []
  | x :: xs => xs.map (fun y => (x, y)) ++ filePairs xs

/-- The full relationship list produced by one `discover_relationships`
call. -/
def discoveredRels (dfs : List (String × Frame)) : List Relationship :=
  (filePairs dfs).flatMap (fun p => pairRelationships p.1.1 p.1.2 p.2.1 p.2.2)

/-- `discover_relationships` of knowledge_graph.py: resets the relationship
list, then appends each discovered relationship and inserts it as a directed
graph edge; returns the new state and the returned list. -/
def discoverRelationships (st : KGState) (dfs : List (String × Frame)) :
    KGState × List Relationship :=
  let rels := discoveredRels dfs
  let g := rels.foldl (fun g r => addEdgeToGraph g r) st.graph
  ({ st with graph := g, relationships := rels }, rels)

/-- Does a relationship connect exactly the column pair
`(f1.c1, f2.c2)` in the discovery orientation? -/
def relMatches (f1 c1 f2 c2 : String) (r : Relationship) : Bool :=
  r.source_file == f1 && r.source_column == c1 && r.target_file == f2 && r.target_column == c2

/-- A completely fresh `LivingKnowledgeGraph` state. -/
def kgEmptyState : KGState :=
  { graph := { nodes := [], nodeAttrs := [], edges := [] }, metadata := [], relationships := [] }

/-- Shape of any relationship emitted for one column pair: it carries the pair
as endpoints, and it is either an exact-name match with confidence 0.9 or a
join-key relationship guarded by the keyword test and the overlap
threshold. -/
lemma columnPairRel_shape {file1 file2 : String} {c1 c2 : Column} {r : Relationship}
    (h : columnPairRel file1 file2 c1 c2 = some r) :
    r.source_file = file1 ∧ r.target_file = file2 ∧
    r.source_column = c1.1 ∧ r.target_column = c2.1 ∧
    ((c1.1 = c2.1 ∧ r.relationship_type = "exact_name_match" ∧ r.confidence = 9/10) ∨
     (c1.1 ≠ c2.1 ∧ isPotentialJoinKey c1.1 c2.1 = true ∧
       1/10 < calculateValueOverlap c1.2 c2.2 ∧ r.relationship_type = "join_key" ∧
       r.confidence = min (calculateValueOverlap c1.2 c2.2) (19/20))) := by
  unfold columnPairRel at h
  split_ifs at h with h1 h2 h3
  · simp only [Option.some.injEq] at h
    subst h
    exact ⟨rfl, rfl, rfl, rfl, Or.inl ⟨h1, rfl, rfl⟩⟩
  · simp only [Option.some.injEq] at h
    subst h
    exact ⟨rfl, rfl, rfl, rfl, Or.inr ⟨h1, h2, h3, rfl, rfl⟩⟩

lemma mem_pairRelationships {r : Relationship} {f1 f2 : String} {d1 d2 : Frame} :
    r ∈ pairRelationships f1 d1 f2 d2 ↔
      ∃ c1 ∈ d1, ∃ c2 ∈ d2, columnPairRel f1 f2 c1 c2 = some r := by
  simp [pairRelationships, List.mem_flatMap, List.mem_filterMap]

lemma mem_discoveredRels {r : Relationship} {dfs : List (String × Frame)} :
    r ∈ discoveredRels dfs ↔
      ∃ p ∈ filePairs dfs, r ∈ pairRelationships p.1.1 p.1.2 p.2.1 p.2.2 := by
  simp [discoveredRels, List.mem_flatMap]

/-- Two datasets sharing two column names: discovery emits two parallel
relationships between the same dataset pair. -/
def twoSharedColumnFrames : List (String × Frame) :=
  [("clients", [("id", [some (.intV 1)]), ("name", [some (.strV "a")])]),
   ("orders",  [("id", [some (.intV 2)]), ("name", [some (.strV "b")])])]

/-- C1 (code bug): `discover_relationships` on two datasets sharing the two
column names `id` and `name` returns two relationships, both between the
dataset pair `(clients, orders)`, yet the graph ends up with a single edge:
`self.graph` is an `nx.DiGraph`, whose `add_edge` keeps one edge per ordered
node pair, so the second relationship silently overwrites the first edge
instead of being kept as a parallel edge, violating the specified invariant
`edge count in Graph == number of discovered relationships`. -/
theorem c1_digraph_overwrites_parallel_edges :
    ((discoverRelationships kgEmptyState twoSharedColumnFrames).2).length = 2 ∧
    ((discoverRelationships kgEmptyState twoSharedColumnFrames).2).all
      (fun r => r.source_file == "clients" && r.target_file == "orders") = true ∧
    ((discoverRelationships kgEmptyState twoSharedColumnFrames).1).graph.edges.length = 1 := by
  refine ⟨by decide, by decide, by decide⟩

/-- Two datasets whose only columns bear the identical name `montant`, a name
with no significant keyword token. -/
def montantFrames : List (String × Frame) :=
  [("a", [("montant", [some (.intV 1)])]), ("b", [("montant", [some (.intV 2)])])]

/-- C5 (counterexample): the column pair `(montant, montant)` shares no
significant keyword token, yet discovery does emit a relationship for it —
the exact-name rule fires on identical names regardless of keyword content,
contradicting the claim that keyword-free pairs never get a relationship. -/
theorem c5_identical_names_counterexample :
    ((splitTokens (lowerStr "montant")).filter
        (fun t => (splitTokens (lowerStr "montant")).contains t &&
          significantKeywords.contains t)) = [] ∧
    isPotentialJoinKey "montant" "montant" = false ∧
    ((discoverRelationships kgEmptyState montantFrames).2).map
        (fun r => (r.source_column, r.target_column, r.relationship_type)) =
      [("montant", "montant", "exact_name_match")] := by
  refine ⟨by decide, by decide, by decide⟩

/-- C5 (amended): for every column pair with two DIFFERENT names that share no
significant keyword token, `discover_relationships` never emits a
relationship for that pair, regardless of value content. -/
theorem c5_no_shared_keyword_amended (st : KGState) (dfs : List (String × Frame))
    (c1 c2 : String) (hne : c1 ≠ c2) (hkey : isPotentialJoinKey c1 c2 = false) :
    ∀ r ∈ (discoverRelationships st dfs).2,
      ¬(r.source_column = c1 ∧ r.target_column = c2) := by
  intro r hr ⟨hs, ht⟩
  have hr' : r ∈ discoveredRels dfs := hr
  rcases mem_discoveredRels.mp hr' with ⟨p, _, hp⟩
  rcases mem_pairRelationships.mp hp with ⟨a, _, b, _, hab⟩
  rcases columnPairRel_shape hab with ⟨_, _, hsc, htc, hcase⟩
  rcases hcase with ⟨heq, _, _⟩ | ⟨_, hkey', _, _, _⟩
  · exact hne (by rw [← hs, ← ht, hsc, htc, heq])
  · have ha : a.1 = c1 := hsc.symm.trans hs
    have hb : b.1 = c2 := htc.symm.trans ht
    rw [ha, hb, hkey] at hkey'
    exact Bool.false_ne_true hkey'

/-- Witness for the amended C5 at a concrete input: no discovered
relationship connects the differing, keyword-free pair (montant, total). -/
theorem c5_no_shared_keyword_amended_witness :
    ((discoverRelationships kgEmptyState montantFrames).2).filter
      (fun r => r.source_column == "montant" && r.target_column == "total") = [] := by
  rw [List.filter_eq_nil_iff]
  intro r hr hP
  exact c5_no_shared_keyword_amended kgEmptyState montantFrames "montant" "total"
    (by decide) (by decide) r hr (by simpa [Bool.and_eq_true] using hP)

lemma relMatches_iff {f1 c1 f2 c2 : String} {r : Relationship} :
    relMatches f1 c1 f2 c2 r = true ↔
      r.source_file = f1 ∧ r.source_column = c1 ∧ r.target_file = f2 ∧ r.target_column = c2 := by
  simp [relMatches, Bool.and_eq_true, beq_iff_eq, and_assoc]

lemma filePairs_mem {α : Type} {pq : α × α} {l : List α} (h : pq ∈ filePairs l) :
    pq.1 ∈ l ∧ pq.2 ∈ l := by
  induction l with
  | nil => cases h
  | cons x xs ih =>
    have h' : (∃ a ∈ xs, (x, a) = pq) ∨ pq ∈ filePairs xs := by simpa [filePairs] using h
    rcases h' with ⟨y, hy, heq⟩ | h2
    · subst heq
      exact ⟨List.mem_cons_self _ _, List.mem_cons_of_mem _ hy⟩
    · exact ⟨List.mem_cons_of_mem _ (ih h2).1, List.mem_cons_of_mem _ (ih h2).2⟩

/-- A pair with the wrong files, or whose columns do not occur in the frames,
contributes no relationship matched by `relMatches f1 c1 f2 c2`. -/
lemma filter_pairRels_eq_nil {g1 g2 f1 c1 f2 c2 : String} {d1 d2 : Frame}
    (h : g1 ≠ f1 ∨ g2 ≠ f2 ∨ c1 ∉ d1.map Prod.fst ∨ c2 ∉ d2.map Prod.fst) :
    (pairRelationships g1 d1 g2 d2).filter (relMatches f1 c1 f2 c2) = [] := by
  rw [List.filter_eq_nil_iff]
  intro r hr hP
  rcases mem_pairRelationships.mp hr with ⟨a, ha, b, hb, hab⟩
  rcases columnPairRel_shape hab with ⟨hsf, htf, hsc, htc, _⟩
  rcases relMatches_iff.mp hP with ⟨h1, h2, h3, h4⟩
  rcases h with h | h | h | h
  · exact h (hsf.symm.trans h1)
  · exact h (htf.symm.trans h3)
  · exact h (by rw [← hsc.symm.trans h2]; exact List.mem_map.mpr ⟨a, ha, rfl⟩)
  · exact h (by rw [← htc.symm.trans h4]; exact List.mem_map.mpr ⟨b, hb, rfl⟩)

lemma filter_flatMap_eq_nil {α : Type} {l : List α} {g : α → List Relationship}
    {P : Relationship → Bool} (h : ∀ a ∈ l, (g a).filter P = []) :
    (l.flatMap g).filter P = [] := by
  rw [List.filter_eq_nil_iff]
  intro r hr hP
  rcases List.mem_flatMap.mp hr with ⟨a, ha, hra⟩
  have h' := h a ha
  rw [List.filter_eq_nil_iff] at h'
  exact h' r hra hP

/-- The relationships emitted against one left column whose name differs from
`c1` never match `relMatches f1 c1 f2 c2`. -/
lemma filter_filterMap_source_nil {f1 f2 c1 c2 : String} {a : Column} {d2 : Frame}
    (hne : a.1 ≠ c1) :
    (d2.filterMap (columnPairRel f1 f2 a)).filter (relMatches f1 c1 f2 c2) = [] := by
  rw [List.filter_eq_nil_iff]
  intro r hr hP
  rcases List.mem_filterMap.mp hr with ⟨b, _, hcb⟩
  rcases columnPairRel_shape hcb with ⟨_, _, hsc, _, _⟩
  exact hne (hsc.symm.trans (relMatches_iff.mp hP).2.1)

/-- If `c2` names no column of `d2`, no emitted relationship matches. -/
lemma filter_filterMap_target_nil {f1 f2 c1 c2 : String} {a : Column} {d2 : Frame}
    (h : c2 ∉ d2.map Prod.fst) :
    (d2.filterMap (columnPairRel f1 f2 a)).filter (relMatches f1 c1 f2 c2) = [] := by
  rw [List.filter_eq_nil_iff]
  intro r hr hP
  rcases List.mem_filterMap.mp hr with ⟨b, hb, hcb⟩
  rcases columnPairRel_shape hcb with ⟨_, _, _, htc, _⟩
  exact h (by
    rw [← htc.symm.trans (relMatches_iff.mp hP).2.2.2]
    exact List.mem_map.mpr ⟨b, hb, rfl⟩)

/-- Localisation, inner level: with duplicate-free column names, filtering the
relationships of a fixed left column down to the pair `(c1, c2)` leaves
exactly the output of `columnPairRel` at the two named columns. -/
lemma filter_filterMap_eq {f1 f2 c1 c2 : String} {v2 : List (Option Value)}
    {d2 : Frame} {a : Column} (ha : a.1 = c1)
    (hnd : (d2.map Prod.fst).Nodup) (hm : (c2, v2) ∈ d2) :
    (d2.filterMap (columnPairRel f1 f2 a)).filter (relMatches f1 c1 f2 c2) =
      (columnPairRel f1 f2 a (c2, v2)).toList := by
  induction d2 with
  | nil => cases hm
  | cons b rest ih =>
    have hnd' : (rest.map Prod.fst).Nodup := (List.nodup_cons.mp (by simpa using hnd)).2
    have hbrest : b.1 ∉ rest.map Prod.fst := (List.nodup_cons.mp (by simpa using hnd)).1
    rw [List.filterMap_cons]
    by_cases hb : b.1 = c2
    · have hbv : b = (c2, v2) := by
        rcases List.mem_cons.mp hm with hm1 | hm1
        · exact hm1.symm
        · exact absurd (by rw [hb]; exact List.mem_map.mpr ⟨(c2, v2), hm1, rfl⟩) hbrest
      have hrest : (rest.filterMap (columnPairRel f1 f2 a)).filter
          (relMatches f1 c1 f2 c2) = [] :=
        filter_filterMap_target_nil (by rw [← hb]; exact hbrest)
      rw [hbv]
      cases hcb : columnPairRel f1 f2 a (c2, v2) with
      | none => simpa [hcb] using hrest
      | some r =>
        have hmatch : relMatches f1 c1 f2 c2 r = true := by
          rcases columnPairRel_shape hcb with ⟨hsf, htf, hsc, htc, _⟩
          exact relMatches_iff.mpr ⟨hsf, hsc.trans ha, htf, htc⟩
        simp [hcb, List.filter_cons, hmatch, hrest]
    · have hm' : (c2, v2) ∈ rest := by
        rcases List.mem_cons.mp hm with hm1 | hm1
        · exact absurd (by rw [← hm1]) hb
        · exact hm1
      cases hcb : columnPairRel f1 f2 a b with
      | none => simpa [hcb] using ih hnd' hm'
      | some r =>
        have hnom : relMatches f1 c1 f2 c2 r = false := by
          rw [Bool.eq_false_iff]
          intro hP
          rcases columnPairRel_shape hcb with ⟨_, _, _, htc, _⟩
          exact hb (htc.symm.trans (relMatches_iff.mp hP).2.2.2)
        simpa [hcb, List.filter_cons, hnom] using ih hnd' hm'

/-- Localisation, dataset-pair level. -/
lemma filter_pairRels_eq {f1 f2 c1 c2 : String} {v1 v2 : List (Option Value)}
    {d1 d2 : Frame}
    (h1 : (d1.map Prod.fst).Nodup) (h2 : (d2.map Prod.fst).Nodup)
    (hm1 : (c1, v1) ∈ d1) (hm2 : (c2, v2) ∈ d2) :
    (pairRelationships f1 d1 f2 d2).filter (relMatches f1 c1 f2 c2) =
      (columnPairRel f1 f2 (c1, v1) (c2, v2)).toList := by
  induction d1 with
  | nil => cases hm1
  | cons a rest ih =>
    have hnd' : (rest.map Prod.fst).Nodup := (List.nodup_cons.mp (by simpa using h1)).2
    have harest : a.1 ∉ rest.map Prod.fst := (List.nodup_cons.mp (by simpa using h1)).1
    rw [pairRelationships, List.flatMap_cons, List.filter_append]
    by_cases hba : a.1 = c1
    · have hav : a = (c1, v1) := by
        rcases List.mem_cons.mp hm1 with hm | hm
        · exact hm.symm
        · exact absurd (by rw [hba]; exact List.mem_map.mpr ⟨(c1, v1), hm, rfl⟩) harest
      have hrest : (pairRelationships f1 rest f2 d2).filter (relMatches f1 c1 f2 c2) = [] :=
        filter_pairRels_eq_nil (Or.inr (Or.inr (Or.inl (by rw [← hba]; exact harest))))
      rw [pairRelationships] at hrest
      have hmain := @filter_filterMap_eq f1 f2 c1 c2 v2 d2 (c1, v1) rfl h2 hm2
      rw [hrest, hav, hmain, List.append_nil]
    · have hm1' : (c1, v1) ∈ rest := by
        rcases List.mem_cons.mp hm1 with hm | hm
        · exact absurd (by rw [← hm]) hba
        · exact hm
      rw [filter_filterMap_source_nil hba, List.nil_append]
      exact ih hnd' hm1'

/-- Localisation over the partners of a fixed first dataset. -/
lemma filter_flatMap_pairs_eq {f1 f2 c1 c2 : String} {df1 df2 : Frame}
    {xs : List (String × Frame)}
    (hnd : (xs.map Prod.fst).Nodup) (hmem : (f2, df2) ∈ xs) :
    ((xs.flatMap (fun y => pairRelationships f1 df1 y.1 y.2)).filter
        (relMatches f1 c1 f2 c2)) =
      (pairRelationships f1 df1 f2 df2).filter (relMatches f1 c1 f2 c2) := by
  induction xs with
  | nil => cases hmem
  | cons z zs ih =>
    have hnd' : (zs.map Prod.fst).Nodup := (List.nodup_cons.mp (by simpa using hnd)).2
    have hzrest : z.1 ∉ zs.map Prod.fst := (List.nodup_cons.mp (by simpa using hnd)).1
    rw [List.flatMap_cons, List.filter_append]
    by_cases hz : z.1 = f2
    · have hzv : z = (f2, df2) := by
        rcases List.mem_cons.mp hmem with h | h
        · exact h.symm
        · exact absurd (by rw [hz]; exact List.mem_map.mpr ⟨(f2, df2), h, rfl⟩) hzrest
      have hrest : ((zs.flatMap (fun y => pairRelationships f1 df1 y.1 y.2)).filter
          (relMatches f1 c1 f2 c2)) = [] := by
        apply filter_flatMap_eq_nil
        intro y hy
        refine filter_pairRels_eq_nil (Or.inr (Or.inl ?_))
        intro hy1
        exact hzrest (by rw [hz, ← hy1]; exact List.mem_map.mpr ⟨y, hy, rfl⟩)
      rw [hzv, hrest, List.append_nil]
    · have hmem' : (f2, df2) ∈ zs := by
        rcases List.mem_cons.mp hmem with h | h
        · exact absurd (by rw [← h]) hz
        · exact h
      have hhead : ((pairRelationships f1 df1 z.1 z.2).filter (relMatches f1 c1 f2 c2)) = [] :=
        filter_pairRels_eq_nil (Or.inr (Or.inl hz))
      rw [hhead, List.nil_append]
      exact ih hnd' hmem'

/-- Localisation, top level: with duplicate-free dataset names, the
relationships matched to the column pair `(f1.c1, f2.c2)` all come from the
iteration over the dataset pair `((f1, df1), (f2, df2))`. -/
lemma filter_discoveredRels_eq {dfs : List (String × Frame)} {f1 f2 c1 c2 : String}
    {df1 df2 : Frame}
    (hnd : (dfs.map Prod.fst).Nodup)
    (hmem : ((f1, df1), (f2, df2)) ∈ filePairs dfs) :
    (discoveredRels dfs).filter (relMatches f1 c1 f2 c2) =
      (pairRelationships f1 df1 f2 df2).filter (relMatches f1 c1 f2 c2) := by
  induction dfs with
  | nil => cases hmem
  | cons x xs ih =>
    have hnd' : (xs.map Prod.fst).Nodup := (List.nodup_cons.mp (by simpa using hnd)).2
    have hxrest : x.1 ∉ xs.map Prod.fst := (List.nodup_cons.mp (by simpa using hnd)).1
    have hsplit : discoveredRels (x :: xs) =
        (xs.flatMap (fun y => pairRelationships x.1 x.2 y.1 y.2)) ++ discoveredRels xs := by
      rw [discoveredRels, discoveredRels, filePairs, List.flatMap_append, List.flatMap_map]
    rw [hsplit, List.filter_append]
    have hmem' : ((f1, df1), (f2, df2)) ∈ xs.map (fun y => (x, y)) ++ filePairs xs := hmem
    rcases List.mem_append.mp hmem' with hm1 | hm2
    · rcases List.mem_map.mp hm1 with ⟨y, hy, heq⟩
      have hx : x = (f1, df1) := congrArg Prod.fst heq
      have hyv : y = (f2, df2) := congrArg Prod.snd heq
      subst hyv
      have hrest : (discoveredRels xs).filter (relMatches f1 c1 f2 c2) = [] := by
        apply filter_flatMap_eq_nil
        intro p hp
        refine filter_pairRels_eq_nil (Or.inl ?_)
        intro hp1
        refine hxrest ?_
        have : p.1 ∈ xs := (filePairs_mem hp).1
        rw [show x.1 = f1 from congrArg Prod.fst hx, ← hp1]
        exact List.mem_map.mpr ⟨p.1, this, rfl⟩
      rw [hrest, List.append_nil, hx]
      exact filter_flatMap_pairs_eq hnd' hy
    · have hf1 : (f1, df1) ∈ xs := (filePairs_mem hm2).1
      have hx1 : x.1 ≠ f1 := by
        intro hcontra
        exact hxrest (by rw [hcontra]; exact List.mem_map.mpr ⟨(f1, df1), hf1, rfl⟩)
      have hhead : ((xs.flatMap (fun y => pairRelationships x.1 x.2 y.1 y.2)).filter
          (relMatches f1 c1 f2 c2)) = [] := by
        apply filter_flatMap_eq_nil
        intro y _
        exact filter_pairRels_eq_nil (Or.inl hx1)
      rw [hhead, List.nil_append]
      exact ih hnd' hm2

/-- `calculateValueOverlap` with its local bindings expanded. -/
lemma calculateValueOverlap_def (w1 w2 : List (Option Value)) :
    calculateValueOverlap w1 w2 =
      if (w1.filterMap id).dedup = [] ∨ (w2.filterMap id).dedup = [] then 0
      else if 0 < (((w1.filterMap id).dedup ++ (w2.filterMap id).dedup).dedup).length then
        ((((w1.filterMap id).dedup ∩ (w2.filterMap id).dedup).length : ℚ) /
          (((((w1.filterMap id).dedup ++ (w2.filterMap id).dedup).dedup).length : ℚ)))
      else 0 := rfl

/-- The Jaccard overlap is symmetric in its two arguments. -/
lemma calculateValueOverlap_comm (w1 w2 : List (Option Value)) :
    calculateValueOverlap w1 w2 = calculateValueOverlap w2 w1 := by
  rw [calculateValueOverlap_def, calculateValueOverlap_def]
  by_cases hA : (w1.filterMap id).dedup = []
  · simp [hA]
  · by_cases hB : (w2.filterMap id).dedup = []
    · simp [hB]
    · have n1 : ((w1.filterMap id).dedup).Nodup := List.nodup_dedup _
      have n2 : ((w2.filterMap id).dedup).Nodup := List.nodup_dedup _
      have hint : (((w1.filterMap id).dedup) ∩ ((w2.filterMap id).dedup)).length =
          (((w2.filterMap id).dedup) ∩ ((w1.filterMap id).dedup)).length := by
        rw [← List.toFinset_card_of_nodup (List.Nodup.inter _ n1),
          ← List.toFinset_card_of_nodup (List.Nodup.inter _ n2),
          List.toFinset_inter, List.toFinset_inter, Finset.inter_comm]
      have huni : ((((w1.filterMap id).dedup) ++ ((w2.filterMap id).dedup)).dedup).length =
          ((((w2.filterMap id).dedup) ++ ((w1.filterMap id).dedup)).dedup).length := by
        rw [← List.card_toFinset, ← List.card_toFinset,
          List.toFinset_append, List.toFinset_append, Finset.union_comm]
      have hAB : ¬((w1.filterMap id).dedup = [] ∨ (w2.filterMap id).dedup = []) := by tauto
      have hBA : ¬((w2.filterMap id).dedup = [] ∨ (w1.filterMap id).dedup = []) := by tauto
      rw [if_neg hAB, if_neg hBA, hint, huni]

/-- An empty or all-null column yields overlap 0. -/
lemma calculateValueOverlap_eq_zero {w1 w2 : List (Option Value)}
    (h : w1.filterMap id = [] ∨ w2.filterMap id = []) :
    calculateValueOverlap w1 w2 = 0 := by
  rcases h with h | h <;> simp [calculateValueOverlap, h]

/-- C3: for every pair of distinct datasets (in discovery enumeration order)
and every column name `c` present in both, `discover_relationships` emits
exactly one relationship for that column pair — of kind `exact_name_match`
with confidence exactly 0.90 — regardless of the value content `v1, v2` of
the two columns (even with zero value overlap); the join-key rule is never
applied to a column pair with equal names (second conjunct: any emitted
relationship whose two column names coincide is an exact-name match with
confidence 0.90). -/
theorem c3_exact_name_match (st : KGState) (dfs : List (String × Frame))
    (f1 f2 c : String) (df1 df2 : Frame) (v1 v2 : List (Option Value))
    (hnd : (dfs.map Prod.fst).Nodup)
    (hmem : ((f1, df1), (f2, df2)) ∈ filePairs dfs)
    (h1 : (df1.map Prod.fst).Nodup) (h2 : (df2.map Prod.fst).Nodup)
    (hc1 : (c, v1) ∈ df1) (hc2 : (c, v2) ∈ df2) :
    ((discoverRelationships st dfs).2).filter (relMatches f1 c f2 c) =
      [{ source_file := f1, source_column := c, target_file := f2, target_column := c,
         relationship_type := "exact_name_match", confidence := 9/10 }] ∧
    ∀ r ∈ (discoverRelationships st dfs).2, r.source_column = r.target_column →
      r.relationship_type = "exact_name_match" ∧ r.confidence = 9/10 := by
  constructor
  · have hdef : (discoverRelationships st dfs).2 = discoveredRels dfs := rfl
    rw [hdef, filter_discoveredRels_eq hnd hmem, filter_pairRels_eq h1 h2 hc1 hc2]
    simp [columnPairRel]
  · intro r hr heq
    have hr' : r ∈ discoveredRels dfs := hr
    rcases mem_discoveredRels.mp hr' with ⟨p, _, hp⟩
    rcases mem_pairRelationships.mp hp with ⟨a, _, b, _, hab⟩
    rcases columnPairRel_shape hab with ⟨_, _, hsc, htc, hcase⟩
    rcases hcase with ⟨_, ht, hc⟩ | ⟨hne, _, _, _, _⟩
    · exact ⟨ht, hc⟩
    · exact absurd (hsc.symm.trans (heq.trans htc)) hne

/-- Witness for C3 at a concrete input: both datasets of
`twoSharedColumnFrames` carry a column `id`, and discovery emits exactly the
one 0.90-confidence exact-name relationship for that pair. -/
theorem c3_exact_name_match_witness :
    ((discoverRelationships kgEmptyState twoSharedColumnFrames).2).filter
        (relMatches "clients" "id" "orders" "id") =
      [{ source_file := "clients", source_column := "id", target_file := "orders",
         target_column := "id", relationship_type := "exact_name_match",
         confidence := 9/10 }] :=
  (c3_exact_name_match kgEmptyState twoSharedColumnFrames "clients" "orders" "id"
    [("id", [some (.intV 1)]), ("name", [some (.strV "a")])]
    [("id", [some (.intV 2)]), ("name", [some (.strV "b")])]
    [some (.intV 1)] [some (.intV 2)]
    (by decide) (by decide) (by decide) (by decide) (by decide) (by decide)).1

/-- C4: for every column pair with differing names sharing at least one
significant keyword token, discovery emits a `join_key` relationship with
confidence `min(overlap, 0.95)` exactly when the Jaccard overlap of the two
columns distinct non-null value sets exceeds 0.10 (first conjunct); an empty
or all-null column on either side yields overlap 0 (second conjunct, hence no
relationship); and the overlap is symmetric in the two columns (third
conjunct). -/
theorem c4_join_key_overlap (st : KGState) (dfs : List (String × Frame))
    (f1 f2 c1 c2 : String) (df1 df2 : Frame) (v1 v2 : List (Option Value))
    (hnd : (dfs.map Prod.fst).Nodup)
    (hmem : ((f1, df1), (f2, df2)) ∈ filePairs dfs)
    (h1 : (df1.map Prod.fst).Nodup) (h2 : (df2.map Prod.fst).Nodup)
    (hc1 : (c1, v1) ∈ df1) (hc2 : (c2, v2) ∈ df2)
    (hne : c1 ≠ c2) (hkey : isPotentialJoinKey c1 c2 = true) :
    ((discoverRelationships st dfs).2).filter (relMatches f1 c1 f2 c2) =
      (if 1/10 < calculateValueOverlap v1 v2 then
        [{ source_file := f1, source_column := c1, target_file := f2, target_column := c2,
           relationship_type := "join_key",
           confidence := min (calculateValueOverlap v1 v2) (19/20) }]
       else []) ∧
    (∀ w1 w2 : List (Option Value), w1.filterMap id = [] ∨ w2.filterMap id = [] →
      calculateValueOverlap w1 w2 = 0) ∧
    (∀ w1 w2 : List (Option Value),
      calculateValueOverlap w1 w2 = calculateValueOverlap w2 w1) := by
  refine ⟨?_, fun w1 w2 h => calculateValueOverlap_eq_zero h,
    fun w1 w2 => calculateValueOverlap_comm w1 w2⟩
  have hdef : (discoverRelationships st dfs).2 = discoveredRels dfs := rfl
  rw [hdef, filter_discoveredRels_eq hnd hmem, filter_pairRels_eq h1 h2 hc1 hc2]
  have hcol : columnPairRel f1 f2 (c1, v1) (c2, v2) =
      (if 1/10 < calculateValueOverlap v1 v2 then
        some { source_file := f1, source_column := c1, target_file := f2,
               target_column := c2, relationship_type := "join_key",
               confidence := min (calculateValueOverlap v1 v2) (19/20) }
       else none) := by
    simp [columnPairRel, hne, hkey]
  rw [hcol]
  by_cases ho : 1/10 < calculateValueOverlap v1 v2
  · rw [if_pos ho, if_pos ho]
    rfl
  · rw [if_neg ho, if_neg ho]
    rfl

/-- Witness for C4 at a concrete input: `customers.id` and
`orders.customer_id` share the keyword token `id`. -/
theorem c4_join_key_overlap_witness :
    ((discoverRelationships kgEmptyState
        [("customers", [("id", [some (.intV 1), some (.intV 2)])]),
         ("orders", [("customer_id", [some (.intV 1), some (.intV 2), some (.intV 3)])])]).2).filter
        (relMatches "customers" "id" "orders" "customer_id") =
      (if 1/10 < calculateValueOverlap [some (.intV 1), some (.intV 2)]
          [some (.intV 1), some (.intV 2), some (.intV 3)] then
        [{ source_file := "customers", source_column := "id", target_file := "orders",
           target_column := "customer_id", relationship_type := "join_key",
           confidence := min (calculateValueOverlap [some (.intV 1), some (.intV 2)]
             [some (.intV 1), some (.intV 2), some (.intV 3)]) (19/20) }]
       else []) :=
  (c4_join_key_overlap kgEmptyState
    [("customers", [("id", [some (.intV 1), some (.intV 2)])]),
     ("orders", [("customer_id", [some (.intV 1), some (.intV 2), some (.intV 3)])])]
    "customers" "orders" "id" "customer_id"
    [("id", [some (.intV 1), some (.intV 2)])]
    [("customer_id", [some (.intV 1), some (.intV 2), some (.intV 3)])]
    [some (.intV 1), some (.intV 2)] [some (.intV 1), some (.intV 2), some (.intV 3)]
    (by decide) (by decide) (by decide) (by decide) (by decide) (by decide)
    (by decide) (by decide)).1

/-!
`get_join_path` of knowledge_graph.py calls
`nx.shortest_path(self.graph.to_undirected(), file1, file2)` inside
`try ... except nx.NetworkXNoPath: return None`.  networkx semantics embedded
here:
* the undirected view makes every directed edge traversable both ways;
* `shortest_path` on the unweighted graph is a breadth-first search; it
  returns `[source]` when `source == target`;
* it raises `NodeNotFound` when source or target is not a node — an exception
  class that is NOT a subclass of `NetworkXNoPath`, so the `except` clause of
  `get_join_path` does not catch it and it propagates to the caller;
* it raises `NetworkXNoPath` when both nodes exist but no path connects them;
  `get_join_path` converts exactly this exception to `None`.
The two exception outcomes are embedded as `Except` errors; `bfsAux` is a
fueled breadth-first search (the fuel bound exceeds every possible number of
iterations, and only the soundness of a returned path is used in proofs).
-/

/-- Neighbours of `u` in the undirected view of the graph. -/
def adjacentNodes (g : KGraph) (u : String) : List String :=
  (g.edges.filterMap (fun e => if e.1 = u then some e.2.1 else none)) ++
    (g.edges.filterMap (fun e => if e.2.1 = u then some e.1 else none))

/-- One undirected step in the graph. -/
def Adjacent (g : KGraph) (u v : String) : Prop := v ∈ adjacentNodes g u

/-- Connectivity in the undirected view of the graph. -/
def Connected (g : KGraph) (a b : String) : Prop :=
  Relation.ReflTransGen (Adjacent g) a b

/-- Fueled breadth-first search; each queue entry is a reversed path whose
head is the frontier node. -/
def bfsAux (g : KGraph) (target : String) :
    Nat → List (List String) → List String → Option (List String)
  | 0, _, _ => none
  | _ + 1, [], _ => none
  | fuel + 1, p :: rest, visited =>
    match p with
    | [] => bfsAux g target fuel rest visited
    | u :: _ =>
      if u = target then some p.reverse
      else
        bfsAux g target fuel
          (rest ++ ((adjacentNodes g u).filter
            (fun v => !(visited.contains v))).map (fun v => v :: p))
          (visited ++ (adjacentNodes g u).filter (fun v => !(visited.contains v)))

/-- Fuel that dominates the number of BFS iterations: the initial queue entry
plus at most one entry per (node, incident edge) pair. -/
def shortestPathFuel (g : KGraph) : Nat :=
  g.nodes.length + 2 * g.edges.length + 1

/-- The two exceptions `nx.shortest_path` can raise. -/
inductive PathError where
  | nodeNotFound
  | noPath
deriving DecidableEq, Repr

/-- `nx.shortest_path(G.to_undirected(), a, b)` on the unweighted graph. -/
def shortestPath (g : KGraph) (a b : String) : Except PathError (List String) :=
  if g.nodes.contains a && g.nodes.contains b then
    match bfsAux g b (shortestPathFuel g) [[a]] [a] with
    | some p => .ok p
    | none => .error .noPath
  else .error .nodeNotFound

/-- `get_join_path` of knowledge_graph.py: `NetworkXNoPath` is converted to
`None`; `NodeNotFound` propagates. -/
def getJoinPath (g : KGraph) (a b : String) : Except PathError (Option (List String)) :=
  match shortestPath g a b with
  | .ok p => .ok (some p)
  | .error .noPath => .ok none
  | .error .nodeNotFound => .error .nodeNotFound

/-- BFS soundness: a found path certifies connectivity of start and target. -/
lemma bfsAux_sound (g : KGraph) (target start : String) :
    ∀ (fuel : Nat) (queue : List (List String)) (visited : List String)
      (res : List String),
      (∀ q ∈ queue, ∃ u rest, q = u :: rest ∧ Connected g start u) →
      bfsAux g target fuel queue visited = some res →
      Connected g start target := by
  intro fuel
  induction fuel with
  | zero =>
    intro queue visited res hinv h
    simp [bfsAux] at h
  | succ n ih =>
    intro queue visited res hinv h
    cases queue with
    | nil => simp [bfsAux] at h
    | cons q rest =>
      cases q with
      | nil =>
        exact ih rest visited res (fun q hq => hinv q (List.mem_cons_of_mem _ hq)) h
      | cons u tl =>
        by_cases hu : u = target
        · rcases hinv (u :: tl) (List.mem_cons_self _ _) with ⟨u', rest', heq, hconn⟩
          injection heq with h1 h2
          rw [← hu, h1]
          exact hconn
        · have h' : bfsAux g target n
              (rest ++ ((adjacentNodes g u).filter
                (fun v => !(visited.contains v))).map (fun v => v :: u :: tl))
              (visited ++ (adjacentNodes g u).filter
                (fun v => !(visited.contains v))) = some res := by
            simpa [bfsAux, hu] using h
          apply ih _ _ res _ h'
          intro q hq
          rcases List.mem_append.mp hq with hq | hq
          · exact hinv q (List.mem_cons_of_mem _ hq)
          · rcases List.mem_map.mp hq with ⟨v, hv, hveq⟩
            refine ⟨v, u :: tl, hveq.symm, ?_⟩
            rcases hinv (u :: tl) (List.mem_cons_self _ _) with ⟨u', rest', heq, hconn⟩
            injection heq with h1 h2
            rw [← h1] at hconn
            exact Relation.ReflTransGen.tail hconn (List.mem_filter.mp hv).1

/-- C6: for a registered dataset `a`, `get_join_path(a, a)` returns `[a]`;
and for registered datasets `a, b` in different connected components of the
undirected view of the graph, `get_join_path(a, b)` returns the no-path
result `None` — no exception escapes in either case. -/
theorem c6_join_path_self_and_disconnected (g : KGraph) (a b : String) :
    (g.nodes.contains a = true → getJoinPath g a a = .ok (some [a])) ∧
    (g.nodes.contains a = true → g.nodes.contains b = true → ¬ Connected g a b →
      getJoinPath g a b = .ok none) := by
  constructor
  · intro ha
    have ha' : a ∈ g.nodes := by simpa using ha
    simp [getJoinPath, shortestPath, ha', shortestPathFuel, bfsAux]
  · intro ha hb hdis
    have ha' : a ∈ g.nodes := by simpa using ha
    have hb' : b ∈ g.nodes := by simpa using hb
    cases hres : bfsAux g b (shortestPathFuel g) [[a]] [a] with
    | some p =>
      exact absurd
        (bfsAux_sound g b a (shortestPathFuel g) [[a]] [a] p
          (by
            intro q hq
            have : q = [a] := by simpa using hq
            exact ⟨a, [], this, Relation.ReflTransGen.refl⟩)
          hres)
        hdis
    | none => simp [getJoinPath, shortestPath, ha', hb', hres]

/-- A two-node, zero-edge graph. -/
def pathWitnessGraph : KGraph := { nodes := ["x", "y"], nodeAttrs := [], edges := [] }

/-- Witness for C6 on a concrete disconnected two-node graph. -/
theorem c6_join_path_witness :
    getJoinPath pathWitnessGraph "x" "x" = .ok (some ["x"]) ∧
    getJoinPath pathWitnessGraph "x" "y" = .ok none :=
  ⟨(c6_join_path_self_and_disconnected pathWitnessGraph "x" "y").1 (by decide),
   (c6_join_path_self_and_disconnected pathWitnessGraph "x" "y").2 (by decide) (by decide)
    (by
      intro h
      rcases Relation.ReflTransGen.cases_head h with heq | ⟨c, hadj, _⟩
      · exact absurd heq (by decide)
      · simp [Adjacent, adjacentNodes, pathWitnessGraph] at hadj)⟩

/-- C10: when `a` or `b` is not a registered node, `get_join_path` does not
return the no-path result: the `NodeNotFound` exception raised inside
`nx.shortest_path` is not caught by the `except nx.NetworkXNoPath` clause
and propagates to the caller. -/
theorem c10_missing_node_raises (g : KGraph) (a b : String)
    (h : ¬(g.nodes.contains a = true ∧ g.nodes.contains b = true)) :
    getJoinPath g a b = .error .nodeNotFound := by
  have h' : ¬(a ∈ g.nodes ∧ b ∈ g.nodes) := by
    simpa using h
  simp [getJoinPath, shortestPath, h']

/-- Witness for C10: querying a path to an unregistered dataset name. -/
theorem c10_missing_node_raises_witness :
    getJoinPath pathWitnessGraph "x" "zzz" = .error .nodeNotFound :=
  c10_missing_node_raises pathWitnessGraph "x" "zzz" (by decide)

/-!
Embedding of trust_layer.py.  The TrustLayer methods only read the shared
`LivingKnowledgeGraph` state; they are embedded in state-passing style (each
rule receives the state and returns it with its issue list) so that the
absence of mutation is a provable statement rather than a modelling
assumption.  Regular-expression use in the source is embedded as follows:
* `\bKW\b` with `re.IGNORECASE` (`_validate_sql_syntax`,
  `_validate_sql_safety`): an occurrence of the keyword, compared
  case-insensitively, whose neighbouring characters (if any) are non-word
  characters — `containsWordCI`;
* `(\w+)\.(\w+)\s*=\s*(\w+)\.(\w+)` with `re.findall`
  (`_validate_join_type_compatibility`): leftmost non-overlapping matches;
  because a shorter `\w+` run always leaves a word character where the
  pattern then requires `.`/`=`, greedy maximal-munch scanning is exact for
  this pattern — `findJoinMatches`;
* the word class `\w` and whitespace class `\s` are taken in their ASCII
  range, which covers the data the source handles.
-/

/-- The ASCII apostrophe as a string (used by the French issue messages). -/
def apos : String := String.singleton (Char.ofNat 39)

/-- Severity levels of trust_layer.py. -/
inductive ValidationSeverity where
  | critical
  | warning
  | info
deriving DecidableEq, Repr

/-- `ValidationIssue` dataclass of trust_layer.py. -/
structure ValidationIssue where
  severity : ValidationSeverity
  rule : String
  message : String
  suggestion : Option String := none
deriving DecidableEq, Repr

/-- Python `\w` (ASCII range): letters, digits, underscore. -/
def isWordChar (c : Char) : Bool :=
  ('a' ≤ c && c ≤ 'z') || ('A' ≤ c && c ≤ 'Z') || ('0' ≤ c && c ≤ '9') || c = '_'

/-- Does the keyword match case-insensitively at the front of `cs`, with word
boundaries on both sides (`before` is the preceding character, if any)? -/
def matchesWordAt (kw : List Char) (before : Option Char) (cs : List Char) : Bool :=
  ((kw.map lowerChar) == ((cs.take kw.length).map lowerChar)) &&
  (match before with
   | none => true
   | some c => !(isWordChar c)) &&
  (match cs.drop kw.length with
   | [] => true
   | c :: _ => !(isWordChar c))

/-- Scan for a whole-word case-insensitive occurrence of the keyword. -/
def containsWordGo (kw : List Char) (before : Option Char) : List Char → Bool
  | [] => matchesWordAt kw before []
  | c :: rest => matchesWordAt kw before (c :: rest) || containsWordGo kw (some c) rest

/-- `re.search(r'\bKW\b', s, re.IGNORECASE) is not None` for a keyword made
of word characters. -/
def containsWordCI (kw : String) (s : String) : Bool :=
  containsWordGo kw.data none s.data

/-- One attempt to match `(\w+)\.(\w+)\s*=\s*(\w+)\.(\w+)` at the start of
`cs`; returns the four captured groups and the rest of the input. -/
def matchJoinAt (cs : List Char) : Option ((String × String × String × String) × List Char) :=
  let w1 := cs.takeWhile isWordChar
  let r1 := cs.dropWhile isWordChar
  if w1 = [] then none else
  match r1 with
  | '.' :: r2 =>
    let w2 := r2.takeWhile isWordChar
    let r3 := r2.dropWhile isWordChar
    if w2 = [] then none else
    match r3.dropWhile isPySpace with
    | '=' :: r5 =>
      let r6 := r5.dropWhile isPySpace
      let w3 := r6.takeWhile isWordChar
      let r7 := r6.dropWhile isWordChar
      if w3 = [] then none else
      match r7 with
      | '.' :: r8 =>
        let w4 := r8.takeWhile isWordChar
        let r9 := r8.dropWhile isWordChar
        if w4 = [] then none
        else some ((String.mk w1, String.mk w2, String.mk w3, String.mk w4), r9)
      | _ => none
    | _ => none
  | _ => none

/-- `re.findall` scanning loop: try each position left to right, continue
after the end of every match.  Every step consumes at least one character, so
the fuel `length + 1` is never exhausted before the input is. -/
def findJoinMatchesGo : Nat → List Char → List (String × String × String × String)
  | 0, _ => []
  | _ + 1, [] => []
  | fuel + 1, c :: cs =>
    match matchJoinAt (c :: cs) with
    | some (m, rest) => m :: findJoinMatchesGo fuel rest
    | none => findJoinMatchesGo fuel cs

/-- `re.findall(r'(\w+)\.(\w+)\s*=\s*(\w+)\.(\w+)', sql)`. -/
def findJoinMatches (sql : String) : List (String × String × String × String) :=
  findJoinMatchesGo (sql.data.length + 1) sql.data

/-- Python substring containment `n in h` (on already lower-cased data). -/
def containsSub (needle hay : List Char) : Bool :=
  needle.isPrefixOf hay ||
    (match hay with
     | [] => false
     | _ :: t => containsSub needle t)

/-- `_resolve_alias_to_file` of trust_layer.py: first file related to the
alias by case-insensitive substring containment in either direction. -/
def resolveAliasToFile (a : String) (files : List String) : Option String :=
  files.find? (fun file =>
    containsSub (lowerStr a).data (lowerStr file).data ||
      containsSub (lowerStr file).data (lowerStr a).data)

/-- `_get_column_type` of trust_layer.py. -/
def getColumnType (metadata : List (String × List (String × ColumnMetadata)))
    (file column : String) : Option String :=
  match metadata.lookup file with
  | some cols =>
    match cols.lookup column with
    | some meta => some meta.dtype
    | none => none
  | none => none

/-- The `numeric_types` set of `_are_types_compatible`. -/
def numericTypes : List String := ["int64", "int32", "float64", "float32", "int", "float"]

/-- The `string_types` set of `_are_types_compatible`. -/
def stringTypes : List String := ["object", "string", "str"]

/-- `_are_types_compatible` of trust_layer.py. -/
def areTypesCompatible (type1 type2 : String) : Bool :=
  let t1 := lowerStr type1
  let t2 := lowerStr type2
  if t1 = t2 then true
  else if numericTypes.contains t1 && numericTypes.contains t2 then true
  else if stringTypes.contains t1 && stringTypes.contains t2 then true
  else false

/-- `_validate_file_existence`.  The suggestion joins the known dataset names;
the source iterates a Python `set`, embedded here in metadata insertion
order. -/
def validateFileExistence (st : KGState) (required_files : List String) :
    KGState × List ValidationIssue :=
  (st, required_files.filterMap (fun file =>
    if (st.metadata.map Prod.fst).contains file then none
    else some
      { severity := .critical, rule := "file_existence"
        message := "Fichier " ++ apos ++ file ++ apos ++ " introuvable"
        suggestion := some ("Fichiers disponibles: " ++
          String.intercalate ", " (st.metadata.map Prod.fst)) }))

/-- One loop iteration of `_validate_column_existence`: the issues for one
`(dataset, required columns)` manifest entry.  A dataset absent from the
metadata is skipped (`continue`), having already been reported by file
existence. -/
def columnIssuesFor (st : KGState) (fc : String × List String) : List ValidationIssue :=
  match st.metadata.lookup fc.1 with
  | none => []
  | some cols =>
    fc.2.filterMap (fun col =>
      if (cols.map Prod.fst).contains col then none
      else some
        { severity := .critical, rule := "column_existence"
          message := "Colonne " ++ apos ++ col ++ apos ++ " introuvable dans " ++
            apos ++ fc.1 ++ apos
          suggestion := some ("Colonnes disponibles: " ++
            String.intercalate ", " (cols.map Prod.fst)) })

/-- `_validate_column_existence`. -/
def validateColumnExistence (st : KGState)
    (required_columns : List (String × List String)) :
    KGState × List ValidationIssue :=
  (st, required_columns.flatMap (columnIssuesFor st))

/-- `_validate_sql_syntax` (named with a `Rule` suffix in this embedding):
whole-word case-insensitive SELECT and FROM checks, then the single-quote
parity check. -/
def validateSqlSyntaxRule (st : KGState) (sql_query : String) :
    KGState × List ValidationIssue :=
  (st,
    (if containsWordCI "SELECT" sql_query then []
     else [{ severity := .critical, rule := "sql_syntax"
             message := "Requête SQL invalide: SELECT manquant" }]) ++
    (if containsWordCI "FROM" sql_query then []
     else [{ severity := .critical, rule := "sql_syntax"
             message := "Requête SQL invalide: FROM manquant" }]) ++
    (if sql_query.data.count (Char.ofNat 39) % 2 ≠ 0 then
      [{ severity := .warning, rule := "sql_syntax"
         message := "Guillemets simples non appariés détectés" }]
     else []))

/-- The issues contributed by one `alias.col = alias.col` match.  The Python
guards `if file1 and file2` and `if type1 and type2` test both for `None` and
for emptiness, hence the explicit empty-string checks. -/
def joinMatchIssues (st : KGState) (required_files : List String)
    (m : String × String × String × String) : List ValidationIssue :=
  match resolveAliasToFile m.1 required_files,
      resolveAliasToFile m.2.2.1 required_files with
  | some file1, some file2 =>
    if file1 = "" ∨ file2 = "" then []
    else
      match getColumnType st.metadata file1 m.2.1,
          getColumnType st.metadata file2 m.2.2.2 with
      | some type1, some type2 =>
        if type1 = "" ∨ type2 = "" then []
        else if areTypesCompatible type1 type2 then []
        else [{ severity := .critical, rule := "type_compatibility"
                message := "Jointure incompatible: " ++ file1 ++ "." ++ m.2.1 ++
                  " (" ++ type1 ++ ") avec " ++ file2 ++ "." ++ m.2.2.2 ++
                  " (" ++ type2 ++ ")"
                suggestion := some ("Convertir l" ++ apos ++ "un des types avec CAST()") }]
      | _, _ => []
  | _, _ => []

/-- `_validate_join_type_compatibility`. -/
def validateJoinTypeCompatibility (st : KGState) (sql_query : String)
    (required_files : List String) : KGState × List ValidationIssue :=
  (st, (findJoinMatches sql_query).flatMap (joinMatchIssues st required_files))

/-- The `dangerous_keywords` table of `_validate_sql_safety`. -/
def dangerousKeywords : List (String × String) :=
  [("DROP", "DROP détecté - opération destructrice"),
   ("DELETE", "DELETE détecté - modification de données"),
   ("UPDATE", "UPDATE détecté - modification de données"),
   ("TRUNCATE", "TRUNCATE détecté - opération destructrice"),
   ("INSERT", "INSERT détecté - modification de données")]

/-- `_validate_sql_safety`: one critical issue per matched keyword. -/
def validateSqlSafety (st : KGState) (sql_query : String) :
    KGState × List ValidationIssue :=
  (st, dangerousKeywords.filterMap (fun km =>
    if containsWordCI km.1 sql_query then
      some { severity := .critical, rule := "sql_safety", message := km.2
             suggestion := some "Seules les requêtes en lecture seule (SELECT) sont autorisées" }
    else none))

/-- Model of the optional LLM judge: given the query and the required files it
either raises (`none`, caught and ignored by the source) or returns the
response text. -/
abbrev LlmJudge := String → List String → Option String

/-- `_validate_semantic_coherence`: a non-`OK` response (after stripping,
compared upper-cased) becomes one warning; an exception yields nothing. -/
def validateSemanticCoherence (st : KGState) (llm : Option LlmJudge)
    (sql_query : String) (required_files : List String) :
    KGState × List ValidationIssue :=
  (st, match llm with
   | none => []
   | some judge =>
     match judge sql_query required_files with
     | none => []
     | some content =>
       if (content.trim).toUpper ≠ "OK" then
         [{ severity := .warning, rule := "semantic_coherence"
            message := "Judge Agent: " ++ content.trim }]
       else [])

/-- `validate_execution_plan` of trust_layer.py: the six rules in order, no
short-circuiting, `passed = no critical issue`. -/
def validateExecutionPlan (st : KGState) (llm : Option LlmJudge)
    (sql_query : String) (required_files : List String)
    (required_columns : List (String × List String)) :
    KGState × Bool × List ValidationIssue :=
  let s1 := validateFileExistence st required_files
  let s2 := validateColumnExistence s1.1 required_columns
  let s3 := validateSqlSyntaxRule s2.1 sql_query
  let s4 := validateJoinTypeCompatibility s3.1 sql_query required_files
  let s5 := validateSqlSafety s4.1 sql_query
  let s6 := if llm.isSome then
      validateSemanticCoherence s5.1 llm sql_query required_files
    else (s5.1, [])
  let issues := s1.2 ++ s2.2 ++ s3.2 ++ s4.2 ++ s5.2 ++ s6.2
  let has_critical := issues.any (fun i => i.severity == ValidationSeverity.critical)
  (s6.1, !has_critical, issues)

/-- C7: `validate_execution_plan` runs all rules without short-circuiting and
returns their issues concatenated in the fixed rule order (file existence,
column existence, sql syntax, join type compatibility, sql safety, then the
optional semantic coherence), each rule preserving its own match order; and
`passed = true` exactly when no returned issue is critical. -/
theorem c7_validate_rule_order_and_passed (st : KGState) (llm : Option LlmJudge)
    (sql_query : String) (required_files : List String)
    (required_columns : List (String × List String)) :
    ((validateExecutionPlan st llm sql_query required_files required_columns).2).2 =
      (validateFileExistence st required_files).2 ++
      (validateColumnExistence st required_columns).2 ++
      (validateSqlSyntaxRule st sql_query).2 ++
      (validateJoinTypeCompatibility st sql_query required_files).2 ++
      (validateSqlSafety st sql_query).2 ++
      (if llm.isSome then (validateSemanticCoherence st llm sql_query required_files).2
       else []) ∧
    (((validateExecutionPlan st llm sql_query required_files required_columns).2).1 = true ↔
      ∀ i ∈ ((validateExecutionPlan st llm sql_query required_files required_columns).2).2,
        i.severity ≠ ValidationSeverity.critical) := by
  constructor
  · cases llm <;> rfl
  · have hgen : ∀ bl : List ValidationIssue,
        (!bl.any (fun i => i.severity == ValidationSeverity.critical)) = true ↔
          ∀ i ∈ bl, i.severity ≠ ValidationSeverity.critical := by
      intro bl
      simp [List.any_eq_true]
    exact hgen _

/-- C9: `validate_execution_plan` never mutates the shared knowledge-graph
state: the metadata mapping, the relationship list and the graph are returned
exactly as given; the only outputs are the `(passed, issues)` pair. -/
theorem c9_validate_preserves_state (st : KGState) (llm : Option LlmJudge)
    (sql_query : String) (required_files : List String)
    (required_columns : List (String × List String)) :
    (validateExecutionPlan st llm sql_query required_files required_columns).1 = st := by
  cases llm <;> rfl

lemma lookup_eq_none_iff_contains {β : Type} (l : List (String × β)) (k : String) :
    l.lookup k = none ↔ (l.map Prod.fst).contains k = false := by
  induction l with
  | nil => simp [List.lookup]
  | cons p rest ih =>
    by_cases hk : k = p.1
    · simp [List.lookup, hk]
    · have hbeq : (k == p.1) = false := by simpa using hk
      simp [List.lookup, hbeq, ih]

/-- C8: the `column_existence` output is the concatenation of per-entry
contributions (first conjunct), a manifest entry whose dataset is not a known
scanned dataset contributes no issue at all (second conjunct), and such a
dataset is exactly one that the `file_existence` rule reports as a critical
issue whenever it is listed in `required_files` (third conjunct) — so
`column_existence` issues only concern datasets present in the metadata. -/
theorem c8_column_existence_skips_unknown_datasets (st : KGState)
    (required_columns : List (String × List String)) :
    (validateColumnExistence st required_columns).2 =
      required_columns.flatMap (columnIssuesFor st) ∧
    (∀ fc ∈ required_columns, (st.metadata.map Prod.fst).contains fc.1 = false →
      columnIssuesFor st fc = []) ∧
    (∀ file : String, (st.metadata.map Prod.fst).contains file = false →
      ((validateFileExistence st [file]).2).length = 1) := by
  refine ⟨rfl, ?_, ?_⟩
  · intro fc _ hfc
    rw [columnIssuesFor, (lookup_eq_none_iff_contains st.metadata fc.1).mpr hfc]
  · intro file hfile
    simp only [validateFileExistence, List.filterMap_cons, hfile]
    rfl

/-- Witness for C8: `ghost` is not a scanned dataset; its manifest entry
contributes no column issue, while file existence flags it. -/
theorem c8_column_existence_witness :
    columnIssuesFor kgEmptyState ("ghost", ["x"]) = [] ∧
    ((validateFileExistence kgEmptyState ["ghost"]).2).length = 1 :=
  ⟨(c8_column_existence_skips_unknown_datasets kgEmptyState [("ghost", ["x"])]).2.1
      ("ghost", ["x"]) (by decide) (by decide),
   (c8_column_existence_skips_unknown_datasets kgEmptyState [("ghost", ["x"])]).2.2
      "ghost" (by decide)⟩

/-- A scanned state with a datetime column and an integer column, the
declared type of the former lying outside both type buckets. -/
def typeMismatchState : KGState :=
  { graph := { nodes := [], nodeAttrs := [], edges := [] }
    metadata :=
      [("orders", [("ts", { file := "orders", column := "ts", dtype := "datetime64[ns]",
                            sample_values := [], is_id := false, cardinality := 0 })]),
       ("sales", [("amt", { file := "sales", column := "amt", dtype := "int64",
                            sample_values := [], is_id := false, cardinality := 0 })])]
    relationships := [] }

/-- C2 (counterexample): in the join `orders.ts = sales.amt` both aliases
resolve and both declared types are available; `datetime64[ns]` lies outside
both the numeric-like and the text-like buckets and differs from `int64`, so
by the claim the pair should be skipped without any issue — but
`_are_types_compatible` returns False for any pair that is neither
identical nor bucketed together, and the rule emits one critical
`type_compatibility` issue. -/
theorem c2_unknown_type_flagged_counterexample :
    resolveAliasToFile "orders" ["orders", "sales"] = some "orders" ∧
    resolveAliasToFile "sales" ["orders", "sales"] = some "sales" ∧
    getColumnType typeMismatchState.metadata "orders" "ts" = some "datetime64[ns]" ∧
    getColumnType typeMismatchState.metadata "sales" "amt" = some "int64" ∧
    numericTypes.contains (lowerStr "datetime64[ns]") = false ∧
    stringTypes.contains (lowerStr "datetime64[ns]") = false ∧
    ("datetime64[ns]" : String) ≠ "int64" ∧
    ((validateJoinTypeCompatibility typeMismatchState
        "orders.ts = sales.amt" ["orders", "sales"]).2).map
      (fun i => (i.severity, i.rule)) =
      [(ValidationSeverity.critical, "type_compatibility")] := by
  refine ⟨by decide, by decide, by decide, by decide, by decide, by decide,
    by decide, by decide⟩

/-- C2 (amended): for every `alias.col = alias.col` match whose two aliases
resolve to (non-empty) files and whose two declared types are available (and
non-empty): no issue is emitted when the two types are equal
case-insensitively or lie in the same bucket (both numeric-like or both
text-like); otherwise exactly one critical issue is emitted — in particular a
type outside both buckets paired with a differing type IS flagged, not
skipped.  Only a pair whose alias fails to resolve or whose column type is
unavailable is skipped. -/
theorem c2_join_type_compatibility_amended (st : KGState) (files : List String)
    (sql a1 c1 a2 c2 f1 f2 t1 t2 : String)
    (hr1 : resolveAliasToFile a1 files = some f1)
    (hr2 : resolveAliasToFile a2 files = some f2)
    (hf1 : f1 ≠ "") (hf2 : f2 ≠ "")
    (hg1 : getColumnType st.metadata f1 c1 = some t1)
    (hg2 : getColumnType st.metadata f2 c2 = some t2)
    (hne1 : t1 ≠ "") (hne2 : t2 ≠ "") :
    (validateJoinTypeCompatibility st sql files).2 =
      (findJoinMatches sql).flatMap (joinMatchIssues st files) ∧
    joinMatchIssues st files (a1, c1, a2, c2) =
      (if areTypesCompatible t1 t2 then []
       else [{ severity := ValidationSeverity.critical, rule := "type_compatibility"
               message := "Jointure incompatible: " ++ f1 ++ "." ++ c1 ++
                 " (" ++ t1 ++ ") avec " ++ f2 ++ "." ++ c2 ++ " (" ++ t2 ++ ")"
               suggestion := some ("Convertir l" ++ apos ++ "un des types avec CAST()") }]) ∧
    (areTypesCompatible t1 t2 = true ↔
      (lowerStr t1 = lowerStr t2 ∨
       (numericTypes.contains (lowerStr t1) = true ∧
         numericTypes.contains (lowerStr t2) = true) ∨
       (stringTypes.contains (lowerStr t1) = true ∧
         stringTypes.contains (lowerStr t2) = true))) := by
  refine ⟨rfl, ?_, ?_⟩
  · rw [joinMatchIssues]
    simp only [hr1, hr2, hg1, hg2]
    rw [if_neg (by tauto), if_neg (by tauto)]
  · rw [areTypesCompatible]
    split_ifs with h1 h2 h3 <;>
      simp_all [Bool.and_eq_true]

/-- Witness for the amended C2 at the concrete datetime/int64 state. -/
theorem c2_join_type_compatibility_amended_witness :
    (validateJoinTypeCompatibility typeMismatchState
        "orders.ts = sales.amt" ["orders", "sales"]).2 =
      (findJoinMatches "orders.ts = sales.amt").flatMap
        (joinMatchIssues typeMismatchState ["orders", "sales"]) ∧
    joinMatchIssues typeMismatchState ["orders", "sales"] ("orders", "ts", "sales", "amt") =
      (if areTypesCompatible "datetime64[ns]" "int64" then []
       else [{ severity := ValidationSeverity.critical, rule := "type_compatibility"
               message := "Jointure incompatible: " ++ "orders" ++ "." ++ "ts" ++
                 " (" ++ "datetime64[ns]" ++ ") avec " ++ "sales" ++ "." ++ "amt" ++
                 " (" ++ "int64" ++ ")"
               suggestion := some ("Convertir l" ++ apos ++ "un des types avec CAST()") }]) ∧
    (areTypesCompatible "datetime64[ns]" "int64" = true ↔
      (lowerStr "datetime64[ns]" = lowerStr "int64" ∨
       (numericTypes.contains (lowerStr "datetime64[ns]") = true ∧
         numericTypes.contains (lowerStr "int64") = true) ∨
       (stringTypes.contains (lowerStr "datetime64[ns]") = true ∧
         stringTypes.contains (lowerStr "int64") = true))) :=
  c2_join_type_compatibility_amended typeMismatchState ["orders", "sales"]
    "orders.ts = sales.amt" "orders" "ts" "sales" "amt" "orders" "sales"
    "datetime64[ns]" "int64"
    (by decide) (by decide) (by decide) (by decide) (by decide) (by decide)
    (by decide) (by decide)

end Ados
